import Mathlib

/-!
Shallow embedding of the Tuya-Dashboard server (multi-device server in
`src/unnamed/part_001`, lines 348-1052, plus the single-device server in the
same file, lines 1-347).  Metric values are modelled as rationals (the JS
numbers only undergo division by 10 / 1000 here); timestamps are an abstract
`Nat` clock passed in by the caller (`new Date().toISOString()` in the JS).
The raw point (DPS) values delivered by the tuyapi link follow the device
schema: dps "1" is a boolean, dps "18"/"19"/"20"/"22" are numbers, so the
JS `typeof x === "number"` guards on those fields always pass and the fields
are typed accordingly.
-/

/-- One device's latest normalized state (`initializeDeviceData`, lines
437-454 of the multi-device server). -/
structure Reading where
  id : String
  name : String
  type : String
  room : String
  timestamp : Nat
  power_state : Bool
  current : Rat
  power : Rat
  voltage : Rat
  energy : Rat
  connected : Bool
  ip : String
  version : String
  enabled : Bool
deriving DecidableEq

/-- A persisted device configuration (entries of `devices.json`). -/
structure DeviceConfig where
  id : String
  name : String
  device_id : String
  device_key : String
  device_ip : String
  version : String
  type : String
  room : String
  enabled : Bool
deriving DecidableEq

/-- A raw point update as delivered by the link: the dps keys the server
reads ("1", "18", "19", "20", "22"); a `none` field is absent from the
update. -/
structure Dps where
  dps1 : Option Bool := none
  dps18 : Option Rat := none
  dps19 : Option Rat := none
  dps20 : Option Rat := none
  dps22 : Option Rat := none
deriving DecidableEq

/-- Lookup in the `deviceData` map (JS `Map.get`), modelled as an
association list with unique keys. -/
def lookupR : String → List (String × Reading) → Option Reading
  | _, [] => none
  | k, (k2, v) :: rest => if k2 = k then some v else lookupR k rest

/-- `Map.set`: replace the entry for the key, or append it. -/
def setR (k : String) (v : Reading) : List (String × Reading) → List (String × Reading)
  | [] => [(k, v)]
  | (k2, v2) :: rest => if k2 = k then (k, v) :: rest else (k2, v2) :: setR k v rest

/-- `Map.delete` on the `deviceData` map. -/
def delR (k : String) : List (String × Reading) → List (String × Reading)
  | [] => []
  | (k2, v) :: rest => if k2 = k then delR k rest else (k2, v) :: delR k rest

/-- Membership in the `devices` map (which device ids own a live TuyAPI
instance); only the key set matters for the model. -/
def memS (k : String) : List String → Bool
  | [] => false
  | x :: xs => if x = k then true else memS k xs

/-- `Map.set` on the `devices` map, key set only. -/
def insertDevice (k : String) (l : List String) : List String :=
  if memS k l then l else l ++ [k]

/-- `Map.delete` on the `devices` map. -/
def removeS (k : String) : List String → List String
  | [] => []
  | x :: xs => if x = k then removeS k xs else x :: removeS k xs

/-- `currentConfig.filter((d) => d.id !== deviceId)` in the remove endpoint. -/
def removeCfg (k : String) : List DeviceConfig → List DeviceConfig
  | [] => []
  | c :: rest => if c.id = k then removeCfg k rest else c :: removeCfg k rest

/-- JS truthiness test for an optional string field of a request body:
`!x` holds when the field is absent or the empty string. -/
def falsy : Option String → Bool
  | none => true
  | some s => s = ""

/-- JS `x || d` for an optional string field. -/
def orDefault (o : Option String) (d : String) : String :=
  if falsy o then d else o.getD ""

/-- Messages sent to WebSocket clients via `broadcastToClients`. -/
inductive Broadcast where
  | deviceData (deviceId : String) (data : Reading)
  | deviceError (deviceId : String) (msg : String)
  | deviceConnect (deviceId : String)
  | deviceDisconnect (deviceId : String)
  | deviceRemoved (deviceId : String)
  | errorMsg (msg : String)
deriving DecidableEq

/-- Observable events of a toggle handler run, in program order:
`setIssued` is the `device.set({dps: 1, set: v})` call reaching the link,
`linkConfirmed` is the resolution of that awaited promise, `localUpdated`
is the write to the stored reading, `published` is the `device_data`
broadcast, `respondedErr` is an error reply to the requesting client. -/
inductive TEv where
  | setIssued (deviceId : String) (value : Bool)
  | linkConfirmed (deviceId : String)
  | localUpdated (deviceId : String) (value : Bool)
  | published (deviceId : String)
  | respondedErr (deviceId : String)
deriving DecidableEq

/-- Response of `POST /api/devices/:deviceId/toggle`. -/
inductive RestResp where
  | ok (newState : Bool)
  | errNotConnected
  | errServer
deriving DecidableEq

/-- Response of `POST /api/devices` (add). -/
inductive AddResp where
  | errMissing
  | errDuplicate
  | ok (c : DeviceConfig)
deriving DecidableEq

/-- Request body of `POST /api/devices`; every field may be absent. -/
structure AddReq where
  id : Option String := none
  name : Option String := none
  device_id : Option String := none
  device_key : Option String := none
  device_ip : Option String := none
  version : Option String := none
  type : Option String := none
  room : Option String := none
deriving DecidableEq

/-- Outcome of one awaited `device.get` poll. -/
inductive PollOutcome where
  | ok (dps : Dps)
  | err (msg : String)
deriving DecidableEq

/-- Events a connected device's TuyAPI instance can emit (listeners
installed in `connectToDevice`, lines 561-591). -/
inductive LinkEv where
  | dataEv (dps : Dps) (now : Nat)
  | errorEv (msg : String)
  | discEv
deriving DecidableEq

/-- The server's mutable state: the `devices` map (live TuyAPI handles,
key set), the `deviceData` map, and the contents of `devices.json`
(`none` when the file does not exist).  The `deviceWriters` map always
holds exactly the keys of `deviceData` (both are set/deleted together),
so it is not tracked separately.

Two further components track the mutable-object semantics of the source:
`connectToDevice` captures `const currentData = deviceData.get(deviceId)`
once, at connect time (line 552), and its `error`/`disconnect` listeners
later write that very object back (lines 565-591), even though
`handleDeviceData` has replaced the map entry with a fresh object (lines
466, 498).  `captured` holds, per device id, the current field values of
the object the listener closures reference; `aliased` lists the ids whose
`deviceData` entry is that same object (so an in-place mutation of the map
entry also changes the captured object).  Connect and the disconnect
listeners make the two coincide; a data event or an add stores a fresh
object and breaks the aliasing. -/
structure ServerState where
  devices : List String
  deviceData : List (String × Reading)
  captured : List (String × Reading)
  aliased : List String
  configFile : Option (List DeviceConfig)
deriving DecidableEq

/-- `initializeDeviceData` (lines 437-454). -/
def initializeDeviceData (c : DeviceConfig) (now : Nat) : Reading :=
  { id := c.id
    name := c.name
    type := c.type
    room := c.room
    timestamp := now
    power_state := false
    current := 0
    power := 0
    voltage := 0
    energy := 0
    connected := false
    ip := c.device_ip
    version := c.version
    enabled := c.enabled }

/-- `loadDeviceConfig` (lines 378-407): the parsed `devices.json` when the
file exists, otherwise the single `.env` fallback device when the
environment variables are set, otherwise nothing. -/
def loadDeviceConfig (file : Option (List DeviceConfig)) (env : Option DeviceConfig) :
    List DeviceConfig :=
  match file with
  | some cfg => cfg
  | none =>
    match env with
    | some c => [c]
    | none => []

/-- The `deviceData` initialization loop of `connectToAllDevices`
(lines 639-647): one fresh reading per configured device, enabled or not. -/
def initDD (cs : List DeviceConfig) (now : Nat) (m : List (String × Reading)) :
    List (String × Reading) :=
  cs.foldl (fun acc c => setR c.id (initializeDeviceData c now) acc) m

/-- `connectToAllDevices` (lines 619-660): initializes a reading for every
configured device and schedules a connection attempt for exactly the
enabled ones (returned as the second component, in order). -/
def connectToAllDevices (file : Option (List DeviceConfig)) (env : Option DeviceConfig)
    (now : Nat) : ServerState × List DeviceConfig :=
  let configs := loadDeviceConfig file env
  ({ devices := []
     deviceData := initDD configs now []
     captured := []
     aliased := []
     configFile := file },
   configs.filter (fun c => c.enabled))

/-- `handleDeviceData` of the multi-device server (lines 457-526): merge the
raw points over the stored reading (absent points carry the stored value),
then apply the unit conversions to the merged values, store, write one CSV
row and broadcast.  Unknown device ids are dropped before any effect.
`updatedData` is a fresh object (`{ ...currentData, ... }`, line 466), so
storing it unaliases the map entry from any listener-captured object. -/
def handleDeviceData (st : ServerState) (deviceId : String) (now : Nat) (dps : Dps) :
    ServerState × List Broadcast × List Reading :=
  match lookupR deviceId st.deviceData with
  | none => (st, [], [])
  | some currentData =>
    let u0 : Reading :=
      { currentData with
        timestamp := now
        power_state := dps.dps1.getD currentData.power_state
        current := dps.dps18.getD currentData.current
        power := dps.dps19.getD currentData.power
        voltage := dps.dps20.getD currentData.voltage
        energy := dps.dps22.getD currentData.energy
        connected := true }
    let u1 := { u0 with voltage := u0.voltage / 10 }
    let u2 := { u1 with power := u1.power / 10 }
    let u3 := if u2.current > (1000 : Rat) then { u2 with current := u2.current / 10 } else u2
    let u4 := { u3 with energy := u3.energy / 1000 }
    ({ st with deviceData := setR deviceId u4 st.deviceData
               aliased := removeS deviceId st.aliased },
     [Broadcast.deviceData deviceId u4], [u4])

/-- `handleDeviceData` of the single-device server (lines 159-208): same
merge-then-convert shape over the single global reading, without the
current conversion and without a map guard. -/
def handleDeviceDataSingle (prev : Reading) (now : Nat) (dps : Dps) :
    Reading × List Broadcast × List Reading :=
  let u0 : Reading :=
    { prev with
      timestamp := now
      power_state := dps.dps1.getD prev.power_state
      current := dps.dps18.getD prev.current
      power := dps.dps19.getD prev.power
      voltage := dps.dps20.getD prev.voltage
      energy := dps.dps22.getD prev.energy
      connected := true }
  let u1 := { u0 with voltage := u0.voltage / 10 }
  let u2 := { u1 with power := u1.power / 10 }
  let u3 := { u2 with energy := u2.energy / 1000 }
  (u3, [Broadcast.deviceData u3.id u3], [u3])

/-- `getDeviceStatusSafe` of the single-device server (lines 134-157): a
poll that resolves delegates to `handleDeviceDataSingle`; a rejection with
message "Timeout" is only logged; any other rejection marks the reading
disconnected and broadcasts the error. -/
def getDeviceStatusSafe (prev : Reading) (now : Nat) (outcome : PollOutcome) :
    Reading × List Broadcast :=
  match outcome with
  | PollOutcome.ok dps =>
    let r := handleDeviceDataSingle prev now dps
    (r.1, r.2.1)
  | PollOutcome.err msg =>
    if msg = "Timeout" then (prev, [])
    else ({ prev with connected := false }, [Broadcast.errorMsg msg])

/-- One device's turn of the `startPeriodicRefresh` loop of the multi-device
server (lines 663-676): `device.get()` is awaited only for ids in the
`devices` map; a resolved poll surfaces through the device's `data`
listener (`handleDeviceData`); any rejection is caught and only logged. -/
def periodicRefreshStep (st : ServerState) (deviceId : String) (now : Nat)
    (outcome : PollOutcome) : ServerState × List Broadcast × List Reading :=
  if memS deviceId st.devices then
    match outcome with
    | PollOutcome.ok dps => handleDeviceData st deviceId now dps
    | PollOutcome.err _ => (st, [], [])
  else (st, [], [])

/-- The shared body of the `error` and `disconnect` listeners
(lines 565-591): `currentData.connected = false; deviceData.set(deviceId,
currentData)` — but `currentData` here is the object the closure captured
at connect time (line 552), NOT a fresh map read.  So the handler writes
the captured object (with `connected` flipped) back into the map,
discarding whatever fresh object `handleDeviceData` stored since, and the
map entry is that captured object again afterwards.  When the closure
captured `undefined` (no reading at connect time), the `if (currentData)`
guard makes the handler a no-op. -/
def disconnectListener (st : ServerState) (deviceId : String) : ServerState :=
  match lookupR deviceId st.captured with
  | some cd =>
    let cd2 := { cd with connected := false }
    { st with captured := setR deviceId cd2 st.captured
              deviceData := setR deviceId cd2 st.deviceData
              aliased := insertDevice deviceId st.aliased }
  | none => st

/-- The post-connect bookkeeping of `connectToDevice` (lines 546-558):
record the live handle, capture `currentData = deviceData.get(deviceId)`
into the listener closures, and mark that object connected (in place, so
map entry and captured object coincide).  When no reading exists, the
closures capture `undefined`: any stale captured entry is dropped. -/
def connectCapture (st : ServerState) (deviceId : String) : ServerState :=
  match lookupR deviceId st.deviceData with
  | some r =>
    let r2 := { r with connected := true }
    { st with deviceData := setR deviceId r2 st.deviceData
              captured := setR deviceId r2 st.captured
              aliased := insertDevice deviceId st.aliased }
  | none =>
    { st with captured := delR deviceId st.captured
              aliased := removeS deviceId st.aliased }

/-- The catch block of `connectToDevice` (lines 599-615): a fresh
`deviceData.get`, then `connected = false` mutated in place and the same
object stored back.  If the map entry is aliased to a listener-captured
object, the in-place mutation changes the captured object too. -/
def connFailMark (st : ServerState) (deviceId : String) : ServerState :=
  match lookupR deviceId st.deviceData with
  | some r =>
    let r2 := { r with connected := false }
    { st with deviceData := setR deviceId r2 st.deviceData
              captured := if memS deviceId st.aliased
                then setR deviceId r2 st.captured else st.captured }
  | none => st

/-- Dispatch of one link event for one device: listeners only exist for
devices that completed `connectToDevice` (ids in the `devices` map), so an
event for any other id has no effect. -/
def linkStep (st : ServerState) (deviceId : String) : LinkEv → ServerState
  | LinkEv.dataEv dps now =>
    if memS deviceId st.devices then (handleDeviceData st deviceId now dps).1 else st
  | LinkEv.errorEv _ =>
    if memS deviceId st.devices then disconnectListener st deviceId else st
  | LinkEv.discEv =>
    if memS deviceId st.devices then disconnectListener st deviceId else st

/-- The guard-and-read phase shared by both toggle handlers (WS lines
709-719, REST lines 804-814): the device must have a live handle, a stored
reading, and `connected = true`; the new state is the negated stored
`power_state`.  `none` means the "Device not connected" rejection. -/
def toggleRead (st : ServerState) (deviceId : String) : Option Bool :=
  if memS deviceId st.devices then
    match lookupR deviceId st.deviceData with
    | some r => if r.connected then some (!r.power_state) else none
    | none => none
  else none

/-- The post-await commit of the WS toggle handler (lines 727-730): a
fresh `deviceData.get`, the new power state and timestamp mutated in
place, and the same object stored back.  If the map entry is aliased to a
listener-captured object, the in-place mutation changes the captured
object too. -/
def toggleCommit (st : ServerState) (deviceId : String) (newState : Bool) (now : Nat) :
    ServerState :=
  match lookupR deviceId st.deviceData with
  | some r =>
    let r2 := { r with power_state := newState, timestamp := now }
    { st with deviceData := setR deviceId r2 st.deviceData
              captured := if memS deviceId st.aliased
                then setR deviceId r2 st.captured else st.captured }
  | none => st

/-- The WS `toggle` message handler (lines 709-758) as an event trace:
guard, issue `set`, await the link's confirmation, then commit the local
reading and broadcast it; a rejected `set` leaves the state alone and
replies with an error. -/
def toggleWs (st : ServerState) (deviceId : String) (now : Nat) (linkOk : Bool) :
    ServerState × List TEv :=
  match toggleRead st deviceId with
  | none => (st, [TEv.respondedErr deviceId])
  | some v =>
    if linkOk then
      (toggleCommit st deviceId v now,
       [TEv.setIssued deviceId v, TEv.linkConfirmed deviceId,
        TEv.localUpdated deviceId v, TEv.published deviceId])
    else
      (st, [TEv.setIssued deviceId v, TEv.respondedErr deviceId])

/-- `POST /api/devices/:deviceId/toggle` (lines 804-825): same guard, but
the handler only reports the new state; it never writes the stored reading
and never broadcasts. -/
def toggleRest (st : ServerState) (deviceId : String) (linkOk : Bool) :
    ServerState × RestResp × List TEv :=
  match toggleRead st deviceId with
  | none => (st, RestResp.errNotConnected, [])
  | some v =>
    if linkOk then
      (st, RestResp.ok v, [TEv.setIssued deviceId v, TEv.linkConfirmed deviceId])
    else
      (st, RestResp.errServer, [TEv.setIssued deviceId v])

/-- Two WS toggle handler instances A and B for the same device,
interleaved at the `await device.set` suspension point (line 721): A reads
and issues its `set`, B reads and issues its `set`, then each confirmation
arrives and each instance commits, in order.  Both `set` calls succeed. -/
def twoToggleRun (st : ServerState) (deviceId : String) (t1 t2 : Nat) :
    ServerState × List TEv :=
  match toggleRead st deviceId with
  | none => (st, [TEv.respondedErr deviceId, TEv.respondedErr deviceId])
  | some vA =>
    match toggleRead st deviceId with
    | none => (st, [TEv.setIssued deviceId vA, TEv.respondedErr deviceId])
    | some vB =>
      let stA := toggleCommit st deviceId vA t1
      let stB := toggleCommit stA deviceId vB t2
      (stB,
       [TEv.setIssued deviceId vA, TEv.setIssued deviceId vB,
        TEv.linkConfirmed deviceId, TEv.localUpdated deviceId vA, TEv.published deviceId,
        TEv.linkConfirmed deviceId, TEv.localUpdated deviceId vB, TEv.published deviceId])

/-- Runtime events of the multi-device server after boot: a connection
attempt resolving (success or failure) for a scheduled config, a link
event from a connected device, or a WS toggle request. -/
inductive SysEv where
  | connOk (c : DeviceConfig) (now : Nat)
  | connFail (c : DeviceConfig)
  | link (deviceId : String) (e : LinkEv)
  | toggle (deviceId : String) (now : Nat) (linkOk : Bool)

/-- One runtime step.  `connOk` is the success path of `connectToDevice`
(lines 546-558); `connFail` its catch block (lines 599-615). -/
def sysStep (st : ServerState) : SysEv → ServerState
  | SysEv.connOk c _ => connectCapture { st with devices := insertDevice c.id st.devices } c.id
  | SysEv.connFail c => connFailMark st c.id
  | SysEv.link deviceId e => linkStep st deviceId e
  | SysEv.toggle deviceId now linkOk => (toggleWs st deviceId now linkOk).1

/-- Which runtime events can actually occur for a given boot configuration:
`connectToAllDevices` schedules `connectToDevice` only for enabled configs
(line 650), so connection-attempt outcomes only arise for those; link and
toggle events are internally guarded by the `devices` map. -/
def validEv (configs : List DeviceConfig) : SysEv → Prop
  | SysEv.connOk c _ => c ∈ configs ∧ c.enabled = true
  | SysEv.connFail c => c ∈ configs ∧ c.enabled = true
  | SysEv.link _ _ => True
  | SysEv.toggle _ _ _ => True

instance (configs : List DeviceConfig) (ev : SysEv) : Decidable (validEv configs ev) := by
  cases ev <;> simp [validEv] <;> infer_instance

/-- `POST /api/devices` (lines 917-976): validate the required fields,
reject an id already present in the persisted `devices.json` (an empty or
missing file reads as the empty list), otherwise append the new config to
the file, initialize its reading, and launch a connection attempt
(returned as the third component). -/
def addDevice (st : ServerState) (req : AddReq) (now : Nat) :
    ServerState × AddResp × List DeviceConfig :=
  if falsy req.id || falsy req.device_id || falsy req.device_key || falsy req.device_ip then
    (st, AddResp.errMissing, [])
  else
    let rid := req.id.getD ""
    let currentConfig := (st.configFile).getD []
    if currentConfig.any (fun d => d.id == rid) then
      (st, AddResp.errDuplicate, [])
    else
      let newDevice : DeviceConfig :=
        { id := rid
          name := orDefault req.name ("Device " ++ rid)
          device_id := req.device_id.getD ""
          device_key := req.device_key.getD ""
          device_ip := req.device_ip.getD ""
          version := orDefault req.version "3.4"
          type := orDefault req.type "smart_plug"
          room := orDefault req.room "Unknown"
          enabled := true }
      let cfg2 := currentConfig ++ [newDevice]
      ({ st with
          configFile := some cfg2
          deviceData := setR newDevice.id (initializeDeviceData newDevice now) st.deviceData
          aliased := removeS newDevice.id st.aliased },
       AddResp.ok newDevice, [newDevice])

/-- `DELETE /api/devices/:deviceId` (lines 979-1012): disconnect and drop
the live handle if present, delete the reading and writer, filter the id
out of `devices.json` when the file exists, broadcast `device_removed`,
and reply success — unconditionally, known id or not. -/
def removeDevice (st : ServerState) (deviceId : String) :
    ServerState × List Broadcast × Bool :=
  ({ st with
      devices := removeS deviceId st.devices
      deviceData := delR deviceId st.deviceData
      configFile := Option.map (removeCfg deviceId) st.configFile },
   [Broadcast.deviceRemoved deviceId], true)

/-- Trace predicate: the event is a `set` forwarded to the link. -/
def isSet : TEv → Bool
  | TEv.setIssued _ _ => true
  | _ => false

/-- Trace predicate: the event is an error reply to the requester. -/
def isErrReply : TEv → Bool
  | TEv.respondedErr _ => true
  | _ => false

/-- Trace predicate: the event is the link confirming a `set`. -/
def isConfirm : TEv → Bool
  | TEv.linkConfirmed _ => true
  | _ => false

/-- Trace predicate: the event is the write to the stored reading. -/
def isLocalUpd : TEv → Bool
  | TEv.localUpdated _ _ => true
  | _ => false

/-- A structurally computable `Decidable` instance for `validEv`, so that
concrete event lists can be checked by `decide`. -/
instance validEvDecidable (configs : List DeviceConfig) :
    (ev : SysEv) → Decidable (validEv configs ev)
  | SysEv.connOk c _ => inferInstanceAs (Decidable (c ∈ configs ∧ c.enabled = true))
  | SysEv.connFail c => inferInstanceAs (Decidable (c ∈ configs ∧ c.enabled = true))
  | SysEv.link _ _ => inferInstanceAs (Decidable True)
  | SysEv.toggle _ _ _ => inferInstanceAs (Decidable True)

/-- The target of the claims' invariants for a disabled device: no live
link handle, and a stored reading whose `connected` flag is false. -/
def disabledUntouched (cid : String) (st : ServerState) : Prop :=
  memS cid st.devices = false ∧
  Option.map Reading.connected (lookupR cid st.deviceData) = some false

/-- A connected smart plug with known metric values, as stored after some
data events; used by the concrete instances below. -/
def rLive : Reading :=
  { id := "device_1", name := "Smart Plug", type := "smart_plug", room := "Lab",
    timestamp := 1, power_state := false, current := 500, power := 40,
    voltage := 230, energy := 5, connected := true, ip := "192.168.0.2",
    version := "3.4", enabled := true }

/-- The connect-time reading of `device_1` as the listener closures
captured it: initialization values with `connected` set true. -/
def rCap : Reading :=
  { id := "device_1", name := "Smart Plug", type := "smart_plug", room := "Lab",
    timestamp := 0, power_state := false, current := 0, power := 0,
    voltage := 0, energy := 0, connected := true, ip := "192.168.0.2",
    version := "3.4", enabled := true }

/-- A server holding the single connected device `rLive`, whose data
events since connect have replaced the map entry (so the listeners'
captured object `rCap` is no longer aliased to it). -/
def stLive : ServerState :=
  { devices := ["device_1"], deviceData := [("device_1", rLive)],
    captured := [("device_1", rCap)], aliased := [], configFile := some [] }

/-- A raw update touching only the power state: a strict subset of the
canonical fields. -/
def dpsOnlyPower : Dps := { dps1 := some true }

/-- A raw update carrying only a current value below the 1000 threshold. -/
def dpsCur500 : Dps := { dps18 := some 500 }

/-- A raw update carrying every canonical point. -/
def dpsAll : Dps :=
  { dps1 := some true, dps18 := some 2500, dps19 := some 40,
    dps20 := some 2304, dps22 := some 5000 }

/-- The `.env` fallback device produced by `loadDeviceConfig` when
`devices.json` does not exist (lines 390-404). -/
def cfgEnv : DeviceConfig :=
  { id := "device_1", name := "Smart Plug", device_id := "bf0123456789", device_key := "envkey",
    device_ip := "192.168.0.2", version := "3.4", type := "smart_plug", room := "Unknown",
    enabled := true }

/-- The server booted from the `.env` fallback (no `devices.json`), after
its device connected: the session `device_1` exists and is connected while
the persisted configuration file is still absent. -/
def stEnvLive : ServerState :=
  sysStep (connectToAllDevices none (some cfgEnv) 0).1 (SysEv.connOk cfgEnv 1)

/-- An add request reusing the id of the registered session `device_1`. -/
def reqDup : AddReq :=
  { id := some "device_1", name := some "Clone", device_id := some "bf9999999999",
    device_key := some "otherkey", device_ip := some "192.168.0.9" }

/-- A server whose persisted configuration does contain `device_1`. -/
def stFileDup : ServerState :=
  { devices := ["device_1"], deviceData := [("device_1", rLive)],
    captured := [("device_1", rCap)], aliased := [], configFile := some [cfgEnv] }

/-- An enabled configured device. -/
def cfgOn : DeviceConfig :=
  { id := "device_1", name := "Plug A", device_id := "bfaaaa", device_key := "ka",
    device_ip := "192.168.0.2", version := "3.4", type := "smart_plug", room := "Lab",
    enabled := true }

/-- A disabled configured device. -/
def cfgOff : DeviceConfig :=
  { id := "device_2", name := "Plug B", device_id := "bfbbbb", device_key := "kb",
    device_ip := "192.168.0.3", version := "3.3", type := "smart_plug", room := "Lab",
    enabled := false }

/-- A concrete runtime: the enabled device connects, gets toggled, and
drops the link. -/
def evsW : List SysEv :=
  [SysEv.connOk cfgOn 1, SysEv.toggle "device_1" 2 true,
   SysEv.link "device_1" LinkEv.discEv]

/-- A raw update carrying measured values: current 500 mA, power 40 W
(raw 400), voltage 230 V (raw 2300), energy 5 kWh (raw 5000). -/
def dpsMetrics : Dps :=
  { dps1 := some true, dps18 := some 500, dps19 := some 400,
    dps20 := some 2300, dps22 := some 5000 }

/-- The server booted with the single enabled `device_1`, after its
connection succeeded: the reading is the initialization object with
`connected = true`, and the listener closures captured that object. -/
def stConn : ServerState :=
  sysStep (connectToAllDevices (some [cfgOn]) none 0).1 (SysEv.connOk cfgOn 1)

/-- `stConn` after a data event delivering `dpsMetrics`: the stored
reading now carries the measured values in a fresh object. -/
def stData : ServerState :=
  sysStep stConn (SysEv.link "device_1" (LinkEv.dataEv dpsMetrics 2))

/-- `stData` after a link error: the `error` listener runs. -/
def stDrop : ServerState :=
  sysStep stData (SysEv.link "device_1" (LinkEv.errorEv "ECONNRESET"))

/-- Looking up a key just written returns the written value. -/
theorem lookupR_setR_self (k : String) (v : Reading) (m : List (String × Reading)) :
    lookupR k (setR k v m) = some v := by
  induction m with
  | nil => simp [setR, lookupR]
  | cons hd tl ih =>
    obtain ⟨k2, v2⟩ := hd
    by_cases h : k2 = k
    · simp [setR, h, lookupR]
    · simp [setR, h, lookupR, ih]

/-- Writing one key leaves lookups of other keys unchanged. -/
theorem lookupR_setR_ne (k k2 : String) (v : Reading) (m : List (String × Reading))
    (h : ¬ k2 = k) : lookupR k (setR k2 v m) = lookupR k m := by
  induction m with
  | nil => simp [setR, lookupR, h]
  | cons hd tl ih =>
    obtain ⟨k3, v3⟩ := hd
    by_cases h2 : k3 = k2
    · subst h2
      simp [setR, lookupR, h]
    · by_cases h3 : k3 = k
      · simp [setR, h2, lookupR, h3, Ne.symm h]
      · simp [setR, h2, lookupR, h3, ih]

/-- A write preserves presence of every key. -/
theorem lookupR_setR_isSome (k k2 : String) (v : Reading) (m : List (String × Reading))
    (h : (lookupR k m).isSome = true) : (lookupR k (setR k2 v m)).isSome = true := by
  by_cases hk : k2 = k
  · subst hk
    rw [lookupR_setR_self]
    rfl
  · rw [lookupR_setR_ne _ _ _ _ hk]
    exact h

/-- `memS` distributes over append. -/
theorem memS_append (k : String) (l1 l2 : List String) :
    memS k (l1 ++ l2) = (memS k l1 || memS k l2) := by
  induction l1 with
  | nil => simp [memS]
  | cons x xs ih =>
    by_cases h : x = k
    · simp [memS, h]
    · simp [memS, h, ih]

/-- Inserting a different key does not affect membership. -/
theorem memS_insertDevice_ne (k k2 : String) (l : List String) (h : ¬ k2 = k) :
    memS k (insertDevice k2 l) = memS k l := by
  unfold insertDevice
  split
  · rfl
  · rw [memS_append]
    simp [memS, h]

/-- Deleting an absent key from the `devices` map is a no-op. -/
theorem removeS_not_mem (k : String) (l : List String) (h : memS k l = false) :
    removeS k l = l := by
  induction l with
  | nil => rfl
  | cons x xs ih =>
    rw [memS] at h
    by_cases hx : x = k
    · simp [hx] at h
    · simp [hx] at h
      rw [removeS]
      simp [hx, ih h]

/-- Deleting an absent key from the `deviceData` map is a no-op. -/
theorem delR_not_mem (k : String) (m : List (String × Reading))
    (h : lookupR k m = none) : delR k m = m := by
  induction m with
  | nil => rfl
  | cons hd tl ih =>
    obtain ⟨k2, v⟩ := hd
    rw [lookupR] at h
    by_cases hk : k2 = k
    · simp [hk] at h
    · simp [hk] at h
      rw [delR]
      simp [hk, ih h]

/-- The disconnect listeners never touch the `devices` map. -/
theorem disconnectListener_devices (st : ServerState) (i : String) :
    (disconnectListener st i).devices = st.devices := by
  unfold disconnectListener
  split <;> rfl

/-- The disconnect listeners leave other devices' readings alone. -/
theorem disconnectListener_lookup_ne (st : ServerState) (i k : String) (h : ¬ i = k) :
    lookupR k (disconnectListener st i).deviceData = lookupR k st.deviceData := by
  unfold disconnectListener
  split
  · exact lookupR_setR_ne _ _ _ _ h
  · rfl

/-- The connect bookkeeping never touches the `devices` map further. -/
theorem connectCapture_devices (st : ServerState) (i : String) :
    (connectCapture st i).devices = st.devices := by
  unfold connectCapture
  split <;> rfl

/-- The connect bookkeeping leaves other devices' readings alone. -/
theorem connectCapture_lookup_ne (st : ServerState) (i k : String) (h : ¬ i = k) :
    lookupR k (connectCapture st i).deviceData = lookupR k st.deviceData := by
  unfold connectCapture
  split
  · exact lookupR_setR_ne _ _ _ _ h
  · rfl

/-- The connect-failure catch block never touches the `devices` map. -/
theorem connFailMark_devices (st : ServerState) (i : String) :
    (connFailMark st i).devices = st.devices := by
  unfold connFailMark
  split <;> rfl

/-- The connect-failure catch block leaves other devices' readings alone. -/
theorem connFailMark_lookup_ne (st : ServerState) (i k : String) (h : ¬ i = k) :
    lookupR k (connFailMark st i).deviceData = lookupR k st.deviceData := by
  unfold connFailMark
  split
  · exact lookupR_setR_ne _ _ _ _ h
  · rfl

/-- Processing a data event never touches the `devices` map. -/
theorem handleDeviceData_devices (st : ServerState) (i : String) (now : Nat) (dps : Dps) :
    (handleDeviceData st i now dps).1.devices = st.devices := by
  unfold handleDeviceData
  split <;> rfl

/-- Processing a data event leaves other devices' readings alone. -/
theorem handleDeviceData_lookup_ne (st : ServerState) (i k : String) (now : Nat) (dps : Dps)
    (h : ¬ i = k) :
    lookupR k (handleDeviceData st i now dps).1.deviceData = lookupR k st.deviceData := by
  unfold handleDeviceData
  split
  · rfl
  · exact lookupR_setR_ne _ _ _ _ h

/-- After a data event for a stored device, the stored reading is the
processed one and it is marked connected. -/
theorem handleDeviceData_lookup_self (st : ServerState) (i : String) (now : Nat) (dps : Dps)
    (cd : Reading) (h : lookupR i st.deviceData = some cd) :
    ∃ u, lookupR i (handleDeviceData st i now dps).1.deviceData = some u
      ∧ u.connected = true := by
  unfold handleDeviceData
  rw [h]
  refine ⟨_, lookupR_setR_self _ _ _, ?_⟩
  by_cases hc : (1000 : Rat) < dps.dps18.getD cd.current <;> simp [hc]

/-- The toggle guard succeeds exactly on a live, connected device, and
computes the negated stored power state. -/
theorem toggleRead_eq (st : ServerState) (i : String) (r : Reading)
    (h1 : memS i st.devices = true) (h2 : lookupR i st.deviceData = some r)
    (h3 : r.connected = true) : toggleRead st i = some (!r.power_state) := by
  unfold toggleRead
  rw [h1, h2]
  simp [h3]

/-- A successful toggle guard implies a live link handle. -/
theorem toggleRead_some_mem (st : ServerState) (i : String) (v : Bool)
    (h : toggleRead st i = some v) : memS i st.devices = true := by
  unfold toggleRead at h
  cases hm : memS i st.devices
  · rw [hm] at h
    simp at h
  · rfl

/-- The toggle commit never touches the `devices` map. -/
theorem toggleCommit_devices (st : ServerState) (i : String) (v : Bool) (now : Nat) :
    (toggleCommit st i v now).devices = st.devices := by
  unfold toggleCommit
  split <;> rfl

/-- The toggle commit leaves other devices' readings alone. -/
theorem toggleCommit_lookup_ne (st : ServerState) (i k : String) (v : Bool) (now : Nat)
    (h : ¬ i = k) :
    lookupR k (toggleCommit st i v now).deviceData = lookupR k st.deviceData := by
  unfold toggleCommit
  split
  · exact lookupR_setR_ne _ _ _ _ h
  · rfl

/-- The WS toggle handler never touches the `devices` map. -/
theorem toggleWs_devices (st : ServerState) (i : String) (now : Nat) (linkOk : Bool) :
    (toggleWs st i now linkOk).1.devices = st.devices := by
  unfold toggleWs
  split
  · rfl
  · split
    · exact toggleCommit_devices _ _ _ _
    · rfl

/-- The WS toggle handler leaves other devices' readings alone. -/
theorem toggleWs_lookup_ne (st : ServerState) (i k : String) (now : Nat) (linkOk : Bool)
    (h : ¬ i = k) :
    lookupR k (toggleWs st i now linkOk).1.deviceData = lookupR k st.deviceData := by
  unfold toggleWs
  split
  · rfl
  · split
    · exact toggleCommit_lookup_ne _ _ _ _ _ h
    · rfl

/-- Link events never touch the `devices` map. -/
theorem linkStep_devices (st : ServerState) (i : String) (e : LinkEv) :
    (linkStep st i e).devices = st.devices := by
  cases e with
  | dataEv dps now =>
    simp only [linkStep]
    split
    · exact handleDeviceData_devices _ _ _ _
    · rfl
  | errorEv m =>
    simp only [linkStep]
    split
    · exact disconnectListener_devices _ _
    · rfl
  | discEv =>
    simp only [linkStep]
    split
    · exact disconnectListener_devices _ _
    · rfl

/-- Link events for one device leave other devices' readings alone. -/
theorem linkStep_lookup_ne (st : ServerState) (i k : String) (e : LinkEv) (h : ¬ i = k) :
    lookupR k (linkStep st i e).deviceData = lookupR k st.deviceData := by
  cases e with
  | dataEv dps now =>
    simp only [linkStep]
    split
    · exact handleDeviceData_lookup_ne _ _ _ _ _ h
    · rfl
  | errorEv m =>
    simp only [linkStep]
    split
    · exact disconnectListener_lookup_ne _ _ _ h
    · rfl
  | discEv =>
    simp only [linkStep]
    split
    · exact disconnectListener_lookup_ne _ _ _ h
    · rfl

/-- A lookup after a write returns the written value or an old binding. -/
theorem lookupR_setR_cases (k k2 : String) (v : Reading) (m : List (String × Reading))
    (r : Reading) (h : lookupR k (setR k2 v m) = some r) :
    r = v ∨ lookupR k m = some r := by
  by_cases hk : k2 = k
  · subst hk
    rw [lookupR_setR_self] at h
    exact Or.inl (Option.some.inj h).symm
  · rw [lookupR_setR_ne _ _ _ _ hk] at h
    exact Or.inr h

/-- Every reading placed by the initialization loop starts disconnected. -/
theorem initDD_connected_false (cs : List DeviceConfig) (now : Nat)
    (m : List (String × Reading))
    (h : ∀ k r, lookupR k m = some r → r.connected = false) :
    ∀ k r, lookupR k (initDD cs now m) = some r → r.connected = false := by
  induction cs generalizing m with
  | nil => exact h
  | cons c tl ih =>
    refine ih _ ?_
    intro k r hk
    rcases lookupR_setR_cases _ _ _ _ _ hk with h1 | h1
    · subst h1
      rfl
    · exact h _ _ h1

/-- The initialization loop preserves presence of every key. -/
theorem initDD_isSome_mono (cs : List DeviceConfig) (now : Nat)
    (m : List (String × Reading)) (k : String)
    (h : (lookupR k m).isSome = true) :
    (lookupR k (initDD cs now m)).isSome = true := by
  induction cs generalizing m with
  | nil => exact h
  | cons c tl ih => exact ih _ (lookupR_setR_isSome _ _ _ _ h)

/-- Every configured device has a reading after the initialization loop. -/
theorem initDD_isSome (cs : List DeviceConfig) (now : Nat)
    (m : List (String × Reading)) (c : DeviceConfig) (hc : c ∈ cs) :
    (lookupR c.id (initDD cs now m)).isSome = true := by
  induction cs generalizing m with
  | nil => cases hc
  | cons c2 tl ih =>
    rcases List.mem_cons.mp hc with h1 | h1
    · subst h1
      show (lookupR c.id (initDD tl now (setR c.id (initializeDeviceData c now) m))).isSome = true
      exact initDD_isSome_mono _ _ _ _ (by rw [lookupR_setR_self]; rfl)
    · show (lookupR c.id (initDD tl now (setR c2.id (initializeDeviceData c2 now) m))).isSome = true
      exact ih _ h1

/-- One valid runtime step cannot give a disabled device a link handle or
flip its reading to connected, as long as no enabled config shares its id. -/
theorem sysStep_preserves_disabled (configs : List DeviceConfig) (c : DeviceConfig)
    (hu : ∀ c2 ∈ configs, c2.enabled = true → ¬ c2.id = c.id)
    (ev : SysEv) (hv : validEv configs ev) (st : ServerState)
    (h : disabledUntouched c.id st) : disabledUntouched c.id (sysStep st ev) := by
  obtain ⟨hdev, hconn⟩ := h
  cases ev with
  | connOk c2 t =>
    obtain ⟨hmem, hen⟩ := hv
    have hne : ¬ c2.id = c.id := hu c2 hmem hen
    constructor
    · rw [show (sysStep st (SysEv.connOk c2 t)).devices
          = (connectCapture { st with devices := insertDevice c2.id st.devices } c2.id).devices
          from rfl]
      rw [connectCapture_devices]
      show memS c.id (insertDevice c2.id st.devices) = false
      rw [memS_insertDevice_ne _ _ _ hne]
      exact hdev
    · show Option.map Reading.connected
        (lookupR c.id (connectCapture { st with devices := insertDevice c2.id st.devices } c2.id).deviceData)
        = some false
      rw [connectCapture_lookup_ne _ _ _ hne]
      exact hconn
  | connFail c2 =>
    obtain ⟨hmem, hen⟩ := hv
    have hne : ¬ c2.id = c.id := hu c2 hmem hen
    constructor
    · show memS c.id (connFailMark st c2.id).devices = false
      rw [connFailMark_devices]
      exact hdev
    · show Option.map Reading.connected (lookupR c.id (connFailMark st c2.id).deviceData)
        = some false
      rw [connFailMark_lookup_ne _ _ _ hne]
      exact hconn
  | link i e =>
    by_cases hne : i = c.id
    · subst hne
      cases e with
      | dataEv dps now =>
        show disabledUntouched c.id
          (if memS c.id st.devices = true then (handleDeviceData st c.id now dps).1 else st)
        rw [if_neg (by rw [hdev]; simp)]
        exact ⟨hdev, hconn⟩
      | errorEv m =>
        show disabledUntouched c.id
          (if memS c.id st.devices = true then disconnectListener st c.id else st)
        rw [if_neg (by rw [hdev]; simp)]
        exact ⟨hdev, hconn⟩
      | discEv =>
        show disabledUntouched c.id
          (if memS c.id st.devices = true then disconnectListener st c.id else st)
        rw [if_neg (by rw [hdev]; simp)]
        exact ⟨hdev, hconn⟩
    · constructor
      · show memS c.id (linkStep st i e).devices = false
        rw [linkStep_devices]
        exact hdev
      · show Option.map Reading.connected (lookupR c.id (linkStep st i e).deviceData) = some false
        rw [linkStep_lookup_ne _ _ _ _ hne]
        exact hconn
  | toggle i now linkOk =>
    by_cases hne : i = c.id
    · subst hne
      have hread : toggleRead st c.id = none := by
        unfold toggleRead
        rw [hdev]
        simp
      show disabledUntouched c.id (toggleWs st c.id now linkOk).1
      unfold toggleWs
      rw [hread]
      exact ⟨hdev, hconn⟩
    · constructor
      · show memS c.id (toggleWs st i now linkOk).1.devices = false
        rw [toggleWs_devices]
        exact hdev
      · show Option.map Reading.connected (lookupR c.id (toggleWs st i now linkOk).1.deviceData)
          = some false
        rw [toggleWs_lookup_ne _ _ _ _ _ hne]
        exact hconn

/-- The invariant of `sysStep_preserves_disabled` carries over any valid
event trace. -/
theorem foldl_preserves_disabled (configs : List DeviceConfig) (c : DeviceConfig)
    (hu : ∀ c2 ∈ configs, c2.enabled = true → ¬ c2.id = c.id)
    (evs : List SysEv) (hv : ∀ ev ∈ evs, validEv configs ev) (st : ServerState)
    (h : disabledUntouched c.id st) :
    disabledUntouched c.id (evs.foldl sysStep st) := by
  induction evs generalizing st with
  | nil => exact h
  | cons ev tl ih =>
    exact ih (fun e he => hv e (List.mem_cons_of_mem _ he)) _
      (sysStep_preserves_disabled configs c hu ev (hv ev (List.mem_cons_self _ _)) st h)

/-- C5: a DeviceConfig with `enabled = false` is never scheduled for a
link connection by `connectToAllDevices`; its reading is nonetheless
initialized and listed; and over any valid runtime trace it never acquires
a link handle and its reading's `connected` flag stays false. -/
theorem c5_disabled_never_connects (file : Option (List DeviceConfig))
    (env : Option DeviceConfig) (t0 : Nat) (evs : List SysEv) (c : DeviceConfig)
    (hc : c ∈ loadDeviceConfig file env) (hd : c.enabled = false)
    (hu : ∀ c2 ∈ loadDeviceConfig file env, c2.enabled = true → ¬ c2.id = c.id)
    (hv : ∀ ev ∈ evs, validEv (loadDeviceConfig file env) ev) :
    c ∉ (connectToAllDevices file env t0).2
    ∧ memS c.id (evs.foldl sysStep (connectToAllDevices file env t0).1).devices = false
    ∧ Option.map Reading.connected
        (lookupR c.id (evs.foldl sysStep (connectToAllDevices file env t0).1).deviceData)
      = some false := by
  have hinit : disabledUntouched c.id (connectToAllDevices file env t0).1 := by
    constructor
    · rfl
    · have h1 := initDD_isSome (loadDeviceConfig file env) t0 [] c hc
      obtain ⟨r, hr⟩ := Option.isSome_iff_exists.mp h1
      have h2 := initDD_connected_false (loadDeviceConfig file env) t0 []
        (by intro k r2 h0; simp [lookupR] at h0) c.id r hr
      show Option.map Reading.connected
        (lookupR c.id (initDD (loadDeviceConfig file env) t0 [])) = some false
      rw [hr]
      simp [h2]
  have hrest := foldl_preserves_disabled _ c hu evs hv _ hinit
  refine ⟨?_, hrest.1, hrest.2⟩
  intro hmem
  have h3 := (List.mem_filter.mp hmem).2
  rw [hd] at h3
  exact Bool.false_ne_true h3

/-- Witness for C5 at a concrete two-device configuration and runtime. -/
theorem c5_disabled_never_connects_witness :
    cfgOff ∉ (connectToAllDevices (some [cfgOn, cfgOff]) none 0).2
    ∧ memS cfgOff.id
        (evsW.foldl sysStep (connectToAllDevices (some [cfgOn, cfgOff]) none 0).1).devices
      = false
    ∧ Option.map Reading.connected
        (lookupR cfgOff.id
          (evsW.foldl sysStep (connectToAllDevices (some [cfgOn, cfgOff]) none 0).1).deviceData)
      = some false :=
  c5_disabled_never_connects (some [cfgOn, cfgOff]) none 0 evsW cfgOff
    (by decide) (by decide) (by decide) (by decide)

/-- C4 (code bug, evaluated at the failing trace): after booting the
single enabled `device_1`, connecting (the listeners capture the
initialization object, metrics all zero), and receiving a data event with
measured current 500 mA, voltage 230 V, energy 5 kWh, a link error makes
the `error` listener write the connect-time captured object back with
`connected = false`: the stored current, voltage, and energy are cleared
back to 0 instead of retaining their pre-disconnect values. -/
theorem c4_disconnect_clears_metrics :
    (Option.map Reading.current (lookupR "device_1" stData.deviceData) = some 500
      ∧ Option.map Reading.voltage (lookupR "device_1" stData.deviceData) = some 230
      ∧ Option.map Reading.energy (lookupR "device_1" stData.deviceData) = some 5
      ∧ Option.map Reading.connected (lookupR "device_1" stData.deviceData) = some true)
    ∧ (Option.map Reading.current (lookupR "device_1" stDrop.deviceData) = some 0
      ∧ Option.map Reading.voltage (lookupR "device_1" stDrop.deviceData) = some 0
      ∧ Option.map Reading.energy (lookupR "device_1" stDrop.deviceData) = some 0
      ∧ Option.map Reading.connected (lookupR "device_1" stDrop.deviceData) = some false) := by
  refine ⟨⟨?_, ?_, ?_, ?_⟩, ?_, ?_, ?_, ?_⟩
  all_goals
    simp [stDrop, stData, stConn, sysStep, connectToAllDevices, loadDeviceConfig, initDD,
      initializeDeviceData, cfgOn, connectCapture, disconnectListener, insertDevice, memS,
      linkStep, handleDeviceData, dpsMetrics, lookupR, setR, removeS]
  all_goals norm_num

/-- C10: a raw data event for a device id with no stored reading is a
complete no-op — the state is unchanged, nothing is broadcast, and no CSV
row is written. -/
theorem c10_unknown_data_noop (st : ServerState) (i : String) (now : Nat) (dps : Dps)
    (h : lookupR i st.deviceData = none) :
    handleDeviceData st i now dps = (st, [], []) := by
  unfold handleDeviceData
  rw [h]

/-- Witness for C10: a data event for an unconfigured id on a live server. -/
theorem c10_unknown_data_noop_witness :
    handleDeviceData stLive "nobody" 4 dpsOnlyPower = (stLive, [], []) :=
  c10_unknown_data_noop stLive "nobody" 4 dpsOnlyPower (by simp [stLive, lookupR])

/-- C7: a timeout of a poll issued while connected is ignored — the
single-device server's `getDeviceStatusSafe` leaves the reading (still
marked connected) and broadcasts nothing, and the multi-device server's
periodic refresh swallows every poll rejection — while a non-timeout poll
error does mark the single-device reading disconnected. -/
theorem c7_poll_timeout_ignored (r : Reading) (now : Nat) (m : String)
    (st : ServerState) (i : String)
    (h1 : r.connected = true) (h2 : ¬ m = "Timeout") :
    getDeviceStatusSafe r now (PollOutcome.err "Timeout") = (r, [])
    ∧ (getDeviceStatusSafe r now (PollOutcome.err "Timeout")).1.connected = true
    ∧ (getDeviceStatusSafe r now (PollOutcome.err m)).1.connected = false
    ∧ periodicRefreshStep st i now (PollOutcome.err "Timeout") = (st, [], [])
    ∧ periodicRefreshStep st i now (PollOutcome.err m) = (st, [], []) := by
  refine ⟨?_, ?_, ?_, ?_, ?_⟩
  · simp [getDeviceStatusSafe]
  · simp [getDeviceStatusSafe, h1]
  · simp [getDeviceStatusSafe, h2]
  · unfold periodicRefreshStep
    split <;> rfl
  · unfold periodicRefreshStep
    split <;> rfl

/-- Witness for C7: the connected `rLive` and a concrete link error. -/
theorem c7_poll_timeout_ignored_witness :
    getDeviceStatusSafe rLive 9 (PollOutcome.err "Timeout") = (rLive, [])
    ∧ (getDeviceStatusSafe rLive 9 (PollOutcome.err "Timeout")).1.connected = true
    ∧ (getDeviceStatusSafe rLive 9 (PollOutcome.err "ECONNRESET")).1.connected = false
    ∧ periodicRefreshStep stLive "device_1" 9 (PollOutcome.err "Timeout") = (stLive, [], [])
    ∧ periodicRefreshStep stLive "device_1" 9 (PollOutcome.err "ECONNRESET") = (stLive, [], []) :=
  c7_poll_timeout_ignored rLive 9 "ECONNRESET" stLive "device_1" rfl (by decide)

/-- C2 (code bug, evaluated at the failing input): a partial update
carrying only the power state (voltage, power, energy absent) makes
`handleDeviceData` re-apply the unit conversions to the carried-forward
values: the stored voltage 230 becomes 23, power 40 becomes 4, and energy
5 becomes 1/200, instead of being carried forward unchanged.  The
single-device handler re-scales the carried values the same way. -/
theorem c2_carry_forward_rescaled :
    dpsOnlyPower.dps20 = none ∧ dpsOnlyPower.dps19 = none ∧ dpsOnlyPower.dps22 = none
    ∧ rLive.voltage = 230 ∧ rLive.power = 40 ∧ rLive.energy = 5
    ∧ Option.map Reading.voltage
        (lookupR "device_1" (handleDeviceData stLive "device_1" 7 dpsOnlyPower).1.deviceData)
      = some 23
    ∧ Option.map Reading.power
        (lookupR "device_1" (handleDeviceData stLive "device_1" 7 dpsOnlyPower).1.deviceData)
      = some 4
    ∧ Option.map Reading.energy
        (lookupR "device_1" (handleDeviceData stLive "device_1" 7 dpsOnlyPower).1.deviceData)
      = some (1 / 200)
    ∧ (handleDeviceDataSingle rLive 7 dpsOnlyPower).1.voltage = 23 := by
  refine ⟨rfl, rfl, rfl, rfl, rfl, rfl, ?_, ?_, ?_, ?_⟩
  all_goals simp [handleDeviceData, handleDeviceDataSingle, stLive, rLive, lookupR, setR,
    dpsOnlyPower]
  all_goals norm_num

/-- C8 (counterexample): with a raw current value of 500 present in the
update, the code stores 500 unscaled (the division only fires above 1000),
while the claim mandates dividing every numeric current value by 10. -/
theorem c8_current_conversion_counterexample :
    Option.map Reading.current
      (lookupR "device_1" (handleDeviceData stLive "device_1" 3 dpsCur500).1.deviceData)
      = some 500
    ∧ ¬ ((500 : Rat) = 500 / 10) := by
  constructor
  · simp [handleDeviceData, stLive, rLive, lookupR, setR, dpsCur500]
    norm_num
  · norm_num

/-- C8 (amended): the conversions are applied to the merged values:
voltage and power are divided by 10 and energy by 1000 for every value,
but current is divided by 10 only when the merged value exceeds 1000 and
is stored unchanged otherwise. -/
theorem c8_unit_conversions_amended (st : ServerState) (i : String) (now : Nat)
    (dps : Dps) (cd : Reading) (h : lookupR i st.deviceData = some cd) :
    Option.map Reading.voltage (lookupR i (handleDeviceData st i now dps).1.deviceData)
      = some (dps.dps20.getD cd.voltage / 10)
    ∧ Option.map Reading.power (lookupR i (handleDeviceData st i now dps).1.deviceData)
      = some (dps.dps19.getD cd.power / 10)
    ∧ Option.map Reading.energy (lookupR i (handleDeviceData st i now dps).1.deviceData)
      = some (dps.dps22.getD cd.energy / 1000)
    ∧ Option.map Reading.current (lookupR i (handleDeviceData st i now dps).1.deviceData)
      = some (if (1000 : Rat) < dps.dps18.getD cd.current
          then dps.dps18.getD cd.current / 10 else dps.dps18.getD cd.current) := by
  unfold handleDeviceData
  rw [h]
  by_cases hc : (1000 : Rat) < dps.dps18.getD cd.current <;>
    simp [lookupR_setR_self, hc]

/-- Witness for the amended C8 at a concrete update carrying all points. -/
theorem c8_unit_conversions_amended_witness :
    Option.map Reading.voltage
      (lookupR "device_1" (handleDeviceData stLive "device_1" 3 dpsAll).1.deviceData)
      = some (dpsAll.dps20.getD rLive.voltage / 10)
    ∧ Option.map Reading.power
        (lookupR "device_1" (handleDeviceData stLive "device_1" 3 dpsAll).1.deviceData)
      = some (dpsAll.dps19.getD rLive.power / 10)
    ∧ Option.map Reading.energy
        (lookupR "device_1" (handleDeviceData stLive "device_1" 3 dpsAll).1.deviceData)
      = some (dpsAll.dps22.getD rLive.energy / 1000)
    ∧ Option.map Reading.current
        (lookupR "device_1" (handleDeviceData stLive "device_1" 3 dpsAll).1.deviceData)
      = some (if (1000 : Rat) < dpsAll.dps18.getD rLive.current
          then dpsAll.dps18.getD rLive.current / 10 else dpsAll.dps18.getD rLive.current) :=
  c8_unit_conversions_amended stLive "device_1" 3 dpsAll rLive (by simp [stLive, lookupR])

/-- After a toggle commit, the stored reading carries the new power state
and timestamp over the previous reading. -/
theorem toggleCommit_lookup_self (st : ServerState) (i : String) (v : Bool) (now : Nat)
    (r : Reading) (h : lookupR i st.deviceData = some r) :
    lookupR i (toggleCommit st i v now).deviceData
      = some { r with power_state := v, timestamp := now } := by
  unfold toggleCommit
  rw [h]
  exact lookupR_setR_self _ _ _

/-- C1 (amended): the server has no in-flight-command tracking and no Busy
result.  Two WS toggle handler instances for the same connected device,
interleaved at the `await device.set` point, each read the still-unchanged
power state and each forward a `set` carrying the same inverted value to
the link; neither request is rejected, and both commit and republish. -/
theorem c1_two_toggles_both_forwarded (st : ServerState) (i : String) (t1 t2 : Nat)
    (r : Reading) (h1 : memS i st.devices = true)
    (h2 : lookupR i st.deviceData = some r) (h3 : r.connected = true) :
    (twoToggleRun st i t1 t2).2 =
      [TEv.setIssued i (!r.power_state), TEv.setIssued i (!r.power_state),
       TEv.linkConfirmed i, TEv.localUpdated i (!r.power_state), TEv.published i,
       TEv.linkConfirmed i, TEv.localUpdated i (!r.power_state), TEv.published i]
    ∧ ((twoToggleRun st i t1 t2).2.filter isSet).length = 2
    ∧ (twoToggleRun st i t1 t2).2.all (fun e => !(isErrReply e)) = true
    ∧ Option.map Reading.power_state (lookupR i (twoToggleRun st i t1 t2).1.deviceData)
      = some (!r.power_state) := by
  have hr := toggleRead_eq st i r h1 h2 h3
  have htr : (twoToggleRun st i t1 t2).2 =
      [TEv.setIssued i (!r.power_state), TEv.setIssued i (!r.power_state),
       TEv.linkConfirmed i, TEv.localUpdated i (!r.power_state), TEv.published i,
       TEv.linkConfirmed i, TEv.localUpdated i (!r.power_state), TEv.published i] := by
    unfold twoToggleRun
    rw [hr]
  have hst : (twoToggleRun st i t1 t2).1 =
      toggleCommit (toggleCommit st i (!r.power_state) t1) i (!r.power_state) t2 := by
    unfold twoToggleRun
    rw [hr]
  have hA := toggleCommit_lookup_self st i (!r.power_state) t1 r h2
  have hB := toggleCommit_lookup_self (toggleCommit st i (!r.power_state) t1) i
    (!r.power_state) t2 _ hA
  refine ⟨htr, ?_, ?_, ?_⟩
  · rw [htr]
    rfl
  · rw [htr]
    rfl
  · rw [hst, hB]
    rfl

/-- Witness for the amended C1 on the connected `device_1`. -/
theorem c1_two_toggles_both_forwarded_witness :
    (twoToggleRun stLive "device_1" 1 2).2 =
      [TEv.setIssued "device_1" (!rLive.power_state), TEv.setIssued "device_1" (!rLive.power_state),
       TEv.linkConfirmed "device_1", TEv.localUpdated "device_1" (!rLive.power_state),
       TEv.published "device_1",
       TEv.linkConfirmed "device_1", TEv.localUpdated "device_1" (!rLive.power_state),
       TEv.published "device_1"]
    ∧ ((twoToggleRun stLive "device_1" 1 2).2.filter isSet).length = 2
    ∧ (twoToggleRun stLive "device_1" 1 2).2.all (fun e => !(isErrReply e)) = true
    ∧ Option.map Reading.power_state (lookupR "device_1" (twoToggleRun stLive "device_1" 1 2).1.deviceData)
      = some (!rLive.power_state) :=
  c1_two_toggles_both_forwarded stLive "device_1" 1 2 rLive (by decide)
    (by simp [stLive, lookupR]) rfl

/-- C1 (counterexample): on the connected `device_1`, the read-read-commit
interleaving of two toggle requests forwards two `set` commands to the
link and rejects neither request — not exactly one forwarded command with
the other receiving a busy rejection. -/
theorem c1_busy_counterexample :
    ¬ (((twoToggleRun stLive "device_1" 1 2).2.filter isSet).length = 1)
    ∧ ((twoToggleRun stLive "device_1" 1 2).2.filter isSet).length = 2
    ∧ (twoToggleRun stLive "device_1" 1 2).2.all (fun e => !(isErrReply e)) = true := by
  refine ⟨?_, ?_, ?_⟩ <;>
    simp [twoToggleRun, toggleRead, toggleCommit, stLive, rLive, lookupR, setR, memS,
      isSet, isErrReply]

/-- C3 (amended): toggling a connected device whose powerState is false
issues exactly one `set` command carrying the inverted value true; the
REST handler reports success with the new state without touching the
stored reading; the WS handler updates the reading's powerState and
timestamp only after the link confirms the `set`, then republishes it. -/
theorem c3_toggle_amended (st : ServerState) (i : String) (now : Nat) (r : Reading)
    (h1 : memS i st.devices = true) (h2 : lookupR i st.deviceData = some r)
    (h3 : r.connected = true) (h4 : r.power_state = false) :
    (toggleWs st i now true).2 =
      [TEv.setIssued i true, TEv.linkConfirmed i, TEv.localUpdated i true, TEv.published i]
    ∧ Option.map Reading.power_state (lookupR i (toggleWs st i now true).1.deviceData)
      = some true
    ∧ Option.map Reading.timestamp (lookupR i (toggleWs st i now true).1.deviceData)
      = some now
    ∧ toggleRest st i true
      = (st, RestResp.ok true, [TEv.setIssued i true, TEv.linkConfirmed i]) := by
  have hv : toggleRead st i = some true := by
    rw [toggleRead_eq st i r h1 h2 h3, h4]
    rfl
  have hst : (toggleWs st i now true).1 = toggleCommit st i true now := by
    unfold toggleWs
    rw [hv]
    rfl
  have hup := toggleCommit_lookup_self st i true now r h2
  refine ⟨?_, ?_, ?_, ?_⟩
  · unfold toggleWs
    rw [hv]
    rfl
  · rw [hst, hup]
    rfl
  · rw [hst, hup]
    rfl
  · unfold toggleRest
    rw [hv]
    rfl

/-- Witness for the amended C3 on the connected, powered-off `device_1`. -/
theorem c3_toggle_amended_witness :
    (toggleWs stLive "device_1" 5 true).2 =
      [TEv.setIssued "device_1" true, TEv.linkConfirmed "device_1",
       TEv.localUpdated "device_1" true, TEv.published "device_1"]
    ∧ Option.map Reading.power_state (lookupR "device_1" (toggleWs stLive "device_1" 5 true).1.deviceData)
      = some true
    ∧ Option.map Reading.timestamp (lookupR "device_1" (toggleWs stLive "device_1" 5 true).1.deviceData)
      = some 5
    ∧ toggleRest stLive "device_1" true
      = (stLive, RestResp.ok true, [TEv.setIssued "device_1" true, TEv.linkConfirmed "device_1"]) :=
  c3_toggle_amended stLive "device_1" 5 rLive (by decide) (by simp [stLive, lookupR]) rfl rfl

/-- C3 (counterexample): on the connected `device_1` with powerState false,
the WS toggle run does perform a local update, but no local update occurs
before the link's confirmation — the commit happens only after the awaited
`set` resolves — and the REST toggle leaves the server state untouched. -/
theorem c3_optimistic_update_counterexample :
    Option.map Reading.power_state (lookupR "device_1" stLive.deviceData) = some false
    ∧ (((toggleWs stLive "device_1" 5 true).2.takeWhile (fun e => !(isConfirm e))).any isLocalUpd)
      = false
    ∧ ((toggleWs stLive "device_1" 5 true).2.any isLocalUpd) = true
    ∧ (toggleRest stLive "device_1" true).1 = stLive := by
  refine ⟨?_, ?_, ?_, ?_⟩ <;>
    simp [toggleWs, toggleRest, toggleRead, toggleCommit, stLive, rLive, lookupR, setR, memS,
      isConfirm, isLocalUpd]

/-- C6 (counterexample): booted from the `.env` fallback (no `devices.json`
on disk), `device_1` is a registered, connected session, yet an add request
reusing its id is not rejected as a duplicate — the duplicate check reads
only the persisted file — and the add reinitializes the stored reading,
flipping its `connected` back to false. -/
theorem c6_duplicate_add_counterexample :
    Option.map Reading.connected (lookupR "device_1" stEnvLive.deviceData) = some true
    ∧ ¬ ((addDevice stEnvLive reqDup 9).2.1 = AddResp.errDuplicate)
    ∧ Option.map Reading.connected
        (lookupR "device_1" (addDevice stEnvLive reqDup 9).1.deviceData) = some false := by
  refine ⟨?_, ?_, ?_⟩ <;>
    simp [stEnvLive, sysStep, connectCapture, connectToAllDevices, loadDeviceConfig,
      initDD, initializeDeviceData, insertDevice, memS, cfgEnv, addDevice, reqDup, falsy,
      orDefault, lookupR, setR, removeS]

/-- C6 (amended): when the requested id is already present in the persisted
`devices.json`, the add request is rejected as a duplicate and nothing
changes: the server state is returned as-is and no connection attempt is
launched. -/
theorem c6_duplicate_add_amended (st : ServerState) (req : AddReq) (now : Nat)
    (cfg : List DeviceConfig)
    (h1 : falsy req.id = false) (h2 : falsy req.device_id = false)
    (h3 : falsy req.device_key = false) (h4 : falsy req.device_ip = false)
    (h5 : st.configFile = some cfg)
    (h6 : cfg.any (fun d => d.id == req.id.getD "") = true) :
    addDevice st req now = (st, AddResp.errDuplicate, []) := by
  unfold addDevice
  rw [h1, h2, h3, h4, h5]
  simp only [Option.getD_some, Bool.or_self, Bool.false_eq_true, if_false]
  rw [if_pos h6]

/-- Witness for the amended C6: adding `device_1` to a server whose
persisted configuration already lists it. -/
theorem c6_duplicate_add_amended_witness :
    addDevice stFileDup reqDup 9 = (stFileDup, AddResp.errDuplicate, []) :=
  c6_duplicate_add_amended stFileDup reqDup 9 [cfgEnv] rfl rfl rfl rfl rfl (by decide)

/-- C9 (counterexample): removing the unknown id "ghost" is not rejected —
the endpoint reports success (and broadcasts a removal) even though no
session, reading, or persisted configuration entry exists for it, and the
state is left unchanged. -/
theorem c9_unknown_remove_counterexample :
    (removeDevice stLive "ghost").2.2 = true
    ∧ (removeDevice stLive "ghost").1 = stLive
    ∧ lookupR "ghost" stLive.deviceData = none := by
  refine ⟨rfl, ?_, by simp [stLive, lookupR]⟩
  simp [removeDevice, stLive, removeS, delR, removeCfg, memS]

/-- C9 (amended): for an id matching no configured device, both toggle
handlers reject the request with a not-connected error (not success) and
change nothing, while the remove endpoint reports success while changing
no session, reading, or persisted configuration — only a spurious
`device_removed` broadcast is emitted. -/
theorem c9_unknown_id_amended (st : ServerState) (i : String) (now : Nat) (linkOk : Bool)
    (h1 : memS i st.devices = false)
    (h2 : lookupR i st.deviceData = none)
    (h3 : Option.map (removeCfg i) st.configFile = st.configFile) :
    toggleRest st i linkOk = (st, RestResp.errNotConnected, [])
    ∧ toggleWs st i now linkOk = (st, [TEv.respondedErr i])
    ∧ removeDevice st i = (st, [Broadcast.deviceRemoved i], true) := by
  have hread : toggleRead st i = none := by
    unfold toggleRead
    rw [h1]
    simp
  refine ⟨?_, ?_, ?_⟩
  · unfold toggleRest
    rw [hread]
  · unfold toggleWs
    rw [hread]
  · unfold removeDevice
    rw [removeS_not_mem _ _ h1, delR_not_mem _ _ h2, h3]

/-- Witness for the amended C9 on the live server and the id "ghost". -/
theorem c9_unknown_id_amended_witness :
    toggleRest stLive "ghost" true = (stLive, RestResp.errNotConnected, [])
    ∧ toggleWs stLive "ghost" 6 true = (stLive, [TEv.respondedErr "ghost"])
    ∧ removeDevice stLive "ghost" = (stLive, [Broadcast.deviceRemoved "ghost"], true) :=
  c9_unknown_id_amended stLive "ghost" 6 true (by decide) (by simp [stLive, lookupR]) rfl
